import Mathlib

/-!
Shallow embedding of `src/lib/sandbox-timeout-manager.ts` (class
`SandboxTimeoutManager` and the module-level global-slot functions).

Modelling conventions:
* The mutable instance fields `lastActivity`, `autoExtendTimer`, `isExtending`
  become the structure `TMState`; methods become state-passing functions.
* `Date.now()` is modelled by explicit `now` / `times` parameters (one
  timestamp per retry attempt; the exact values never influence control flow
  inside `executeWithTimeout`).
* An asynchronous operation is modelled per invocation: invocation `i` either
  resolves with a value, rejects with an error message, or never settles
  (`pending`); `Promise.race` against the per-call timer turns `pending` into
  the timeout rejection, exactly as `withTimeout` does in the source.
* The duck-typed sandbox handle is modelled by an optional renewal capability
  (`setTimeoutFn`), taking the requested duration and a call index so that
  distinct remote renewal calls may succeed or fail independently.
* A thrown JavaScript value is `Thrown`: either a thrown `Error` carrying a
  message, or the thrown `null` from the `throw lastError!` fallthrough that
  runs when `maxRetries = 0` and the `for` loop body never executes.
* JS float arithmetic in the tick guard (`timeSinceLastActivity >
  thresholdMs * 0.8`) is modelled exactly over the rationals by comparing
  `elapsed * 10 > thresholdMs * 8`; for the integer millisecond values
  involved the double-precision comparison agrees with the rational one.
-/

namespace SandboxTimeoutManager

/-- `needle` occurs as a substring of `hay`; models JavaScript
`String.prototype.includes`. -/
def strIncludes (hay needle : String) : Bool :=
  decide (needle.toList <:+: hay.toList)

/-- The fixed keyword list of `isTimeoutError`. -/
def timeoutKeywords : List String :=
  ["timeout", "502", "not found", "expired", "terminated"]

/-- Character-wise lowercasing; the effect of `toLowerCase` on the ASCII
error messages involved. -/
def strToLower (s : String) : String :=
  ⟨s.data.map Char.toLower⟩

/-- `isTimeoutError`: lowercase the message and test each keyword for
substring containment. -/
def isTimeoutError (msg : String) : Bool :=
  timeoutKeywords.any (fun k => strIncludes (strToLower msg) k)

/-- The mutable fields of a `SandboxTimeoutManager` instance.
`autoExtendTimer` holds the interval (ms) of the live timer, `none` when no
timer is installed. -/
structure TMState where
  lastActivity : Nat
  autoExtendTimer : Option Nat
  isExtending : Bool
deriving DecidableEq, Repr

/-- The configuration fields the modelled methods read: the four
`TimeoutManagerOptions` entries they use plus `appConfig.e2b.timeoutMs`
(the lease duration passed to the remote renewal call). -/
structure Config where
  maxRetries : Nat
  retryDelay : Nat
  processTimeout : Nat
  autoExtendThreshold : Nat
  timeoutMs : Nat
deriving DecidableEq, Repr

/-- The duck-typed sandbox handle, restricted to the capability the modelled
methods probe: `setTimeout` is optional; when present, calling it with the
requested duration and a call index either resolves or rejects. -/
structure Sandbox where
  setTimeoutFn : Option (Nat → Nat → Except String Unit)

/-- Outcome of `extendSandboxTimeout`: the value returned or error thrown,
the instance state on exit, and whether the remote `sandbox.setTimeout`
capability was actually invoked. -/
structure ExtendResult where
  result : Except String Unit
  st : TMState
  remoteCalled : Bool

/-- `extendSandboxTimeout`: no-op when `isExtending` is already set;
otherwise set the flag, invoke the remote capability when present (stamping
`lastActivity` on success), and clear the flag in the `finally` block even
when the remote call throws. -/
def extendSandboxTimeout (sb : Sandbox) (cfg : Config) (now rIdx : Nat)
    (st : TMState) : ExtendResult :=
  if st.isExtending then
    { result := .ok (), st := st, remoteCalled := false }
  else
    match sb.setTimeoutFn with
    | some f =>
      match f cfg.timeoutMs rIdx with
      | .ok () =>
        { result := .ok ()
          st := { st with lastActivity := now, isExtending := false }
          remoteCalled := true }
      | .error e =>
        { result := .error e
          st := { st with isExtending := false }
          remoteCalled := true }
    | none =>
      { result := .ok (), st := { st with isExtending := false }
        remoteCalled := false }

/-- One invocation of an asynchronous operation: resolve, reject with a
message, or never settle. -/
inductive OpOutcome (α : Type) where
  | ok (a : α)
  | failed (msg : String)
  | pending
deriving DecidableEq, Repr

/-- Whether an invocation outcome is a resolution. -/
def OpOutcome.isOk {α : Type} : OpOutcome α → Bool
  | .ok _ => true
  | _ => false

/-- `withTimeout`: race the operation against a timer; a never-settling
operation loses the race and becomes the timeout rejection. -/
def withTimeout {α : Type} (timeoutMs : Nat) : OpOutcome α → Except String α
  | .ok a => .ok a
  | .failed e => .error e
  | .pending =>
    .error ("Operation timed out after " ++ toString timeoutMs ++ "ms")

/-- A value thrown out of `executeWithTimeout`: an `Error` with a message,
or the bare `null` thrown by the trailing `throw lastError!` when the retry
loop body never ran. -/
inductive Thrown where
  | nullValue
  | errMsg (msg : String)
deriving DecidableEq, Repr

/-- Observable outcome of one `executeWithTimeout` call: the resolution or
thrown value, how many times the operation was invoked, how many times the
renewal path (`extendSandboxTimeout`) was entered from the catch block, how
many remote renewal calls that produced, and the instance state on exit. -/
structure ExecResult (α : Type) where
  result : Except Thrown α
  opCalls : Nat
  renewAttempts : Nat
  remoteRenews : Nat
  st : TMState

/-- The catch-block reaction to a failed attempt: when the error is
timeout-like, enter the renewal path (its own failure is caught and only
logged); returns the state afterwards, how many renewal attempts were made
(0 or 1) and how many remote renewal calls that produced. -/
def renewOnError (cfg : Config) (sb : Sandbox) (e : String) (now rIdx : Nat)
    (st : TMState) : TMState × Nat × Nat :=
  if isTimeoutError e then
    let ext := extendSandboxTimeout sb cfg now rIdx st
    (ext.st, 1, if ext.remoteCalled then 1 else 0)
  else (st, 0, 0)

/-- The retry loop of `executeWithTimeout`, recursing on the number of
attempts still allowed; `callIdx` counts completed invocations (attempt
number minus one), and `remaining = 1` is exactly the source's
`attempt === maxRetries` final-attempt test.  Reaching `remaining = 0`
without an attempt models the `for` loop exiting with `lastError = null`
and the trailing `throw lastError!`. -/
def execGo {α : Type} (cfg : Config) (sb : Sandbox) (op : Nat → OpOutcome α)
    (name : String) (times : Nat → Nat) :
    Nat → Nat → TMState → ExecResult α
  | _, 0, st =>
    { result := .error .nullValue, opCalls := 0, renewAttempts := 0
      remoteRenews := 0, st := st }
  | callIdx, remaining + 1, st =>
    let st1 : TMState := { st with lastActivity := times callIdx }
    match withTimeout cfg.processTimeout (op callIdx) with
    | .ok a =>
      { result := .ok a, opCalls := 1, renewAttempts := 0, remoteRenews := 0
        st := st1 }
    | .error e =>
      let ren := renewOnError cfg sb e (times callIdx) callIdx st1
      if remaining = 0 then
        { result := .error (.errMsg ("Failed to execute " ++ name ++
            " after " ++ toString cfg.maxRetries ++
            " attempts. Last error: " ++ e))
          opCalls := 1, renewAttempts := ren.2.1, remoteRenews := ren.2.2
          st := ren.1 }
      else
        let rest := execGo cfg sb op name times (callIdx + 1) remaining ren.1
        { result := rest.result, opCalls := rest.opCalls + 1
          renewAttempts := rest.renewAttempts + ren.2.1
          remoteRenews := rest.remoteRenews + ren.2.2, st := rest.st }

/-- `executeWithTimeout`: run the retry loop starting at attempt 1 with
`maxRetries` attempts allowed. -/
def executeWithTimeout {α : Type} (cfg : Config) (sb : Sandbox)
    (op : Nat → OpOutcome α) (name : String) (times : Nat → Nat)
    (st : TMState) : ExecResult α :=
  execGo cfg sb op name times 0 cfg.maxRetries st

/-- The record returned by `getStatus`. -/
structure Status where
  lastActivity : Nat
  timeSinceLastActivity : Nat
  isExtending : Bool
  autoExtendEnabled : Bool
deriving DecidableEq, Repr

/-- `getStatus`: pure read of the instance state at time `now`
(`autoExtendEnabled` is the truthiness of `autoExtendTimer`). -/
def getStatus (now : Nat) (st : TMState) : Status :=
  { lastActivity := st.lastActivity
    timeSinceLastActivity := now - st.lastActivity
    isExtending := st.isExtending
    autoExtendEnabled := st.autoExtendTimer.isSome }

/-- `cleanup`: when a timer is installed, cancel it and clear the field;
otherwise do nothing. -/
def cleanup (st : TMState) : TMState :=
  if st.autoExtendTimer.isSome then { st with autoExtendTimer := none }
  else st

/-- The tick interval computed by `startAutoExtendTimer`:
`min(autoExtendThreshold * 60 * 1000 / 2, 60000)`. -/
def checkIntervalMs (cfg : Config) : Nat :=
  min (cfg.autoExtendThreshold * 60 * 1000 / 2) 60000

/-- `startAutoExtendTimer`: when `autoExtendThreshold` is truthy (non-zero),
install the recurring timer at `checkIntervalMs`; otherwise leave the state
unchanged. -/
def startAutoExtendTimer (cfg : Config) (st : TMState) : TMState :=
  if cfg.autoExtendThreshold ≠ 0 then
    { st with autoExtendTimer := some (checkIntervalMs cfg) }
  else st

/-- The tick guard `timeSinceLastActivity > thresholdMs * 0.8`, stated
exactly over the integers (multiply both sides by 10). -/
def tickTriggers (cfg : Config) (now : Nat) (st : TMState) : Bool :=
  decide ((now - st.lastActivity) * 10 > cfg.autoExtendThreshold * 60 * 1000 * 8)

/-- Outcome of one scheduler tick: the state afterwards, how many times the
renewal path (`extendSandboxTimeout`) was invoked, and the error the tick
body raised, if any (before the surrounding try/catch handles it). -/
structure TickResult where
  st : TMState
  renewCalls : Nat
  raised : Option String
deriving Repr

/-- Body of the `setInterval` callback in `startAutoExtendTimer`, without
its try/catch: when the elapsed time exceeds 80% of the threshold, invoke
`extendSandboxTimeout`; an error of the awaited renewal escapes as
`raised`. -/
def autoExtendTickBody (cfg : Config) (sb : Sandbox) (now rIdx : Nat)
    (st : TMState) : TickResult :=
  if tickTriggers cfg now st then
    let ext := extendSandboxTimeout sb cfg now rIdx st
    { st := ext.st, renewCalls := 1
      raised := match ext.result with
        | .ok _ => none
        | .error e => some e }
  else { st := st, renewCalls := 0, raised := none }

/-- The full `setInterval` callback: the try/catch logs the raised error and
never rethrows, so nothing escapes the tick. -/
def autoExtendTick (cfg : Config) (sb : Sandbox) (now rIdx : Nat)
    (st : TMState) : TickResult :=
  let body := autoExtendTickBody cfg sb now rIdx st
  { body with raised := none }

/-- The module-level global slot together with the per-instance states of
all managers, identified by number: `slot` is the `globalTimeoutManager`
variable (`none` models `null`). -/
structure GlobalWorld where
  slot : Option Nat
  managers : Nat → TMState

/-- `getGlobalTimeoutManager`: read the slot. -/
def getGlobalTimeoutManager (w : GlobalWorld) : Option Nat := w.slot

/-- `setGlobalTimeoutManager`: when the slot is occupied, run `cleanup` on
the occupant first, then install the new value. -/
def setGlobalTimeoutManager (v : Option Nat) (w : GlobalWorld) :
    GlobalWorld :=
  let ms := match w.slot with
    | some m => fun i => if i = m then cleanup (w.managers i) else w.managers i
    | none => w.managers
  { slot := v, managers := ms }

/-! ### Helper lemmas -/

/-- `cleanup` always leaves the timer field empty, whether or not a timer
was installed. -/
theorem cleanup_timer_eq_none (st : TMState) :
    (cleanup st).autoExtendTimer = none := by
  rcases h : st.autoExtendTimer with _ | t <;> simp [cleanup, h]

/-- When an invocation is not a resolution, the race in `withTimeout`
produces some rejection. -/
theorem withTimeout_error_of_not_isOk {α : Type} (t : Nat) (o : OpOutcome α)
    (h : o.isOk = false) : ∃ e, withTimeout t o = Except.error e := by
  rcases o with a | e | _
  · simp [OpOutcome.isOk] at h
  · exact ⟨e, rfl⟩
  · exact ⟨_, rfl⟩

/-- One step of the retry loop when the raced attempt resolves. -/
theorem execGo_step_ok {α : Type} (cfg : Config) (sb : Sandbox)
    (op : Nat → OpOutcome α) (name : String) (times : Nat → Nat)
    (callIdx k : Nat) (st : TMState) (a : α)
    (ha : withTimeout cfg.processTimeout (op callIdx) = Except.ok a) :
    execGo cfg sb op name times callIdx (k + 1) st =
      { result := .ok a, opCalls := 1, renewAttempts := 0
        remoteRenews := 0
        st := { st with lastActivity := times callIdx } } := by
  conv_lhs => rw [execGo]
  simp [ha]

/-- One step of the retry loop when the final allowed attempt fails: the
wrapped error is thrown after the renewal reaction. -/
theorem execGo_step_last {α : Type} (cfg : Config) (sb : Sandbox)
    (op : Nat → OpOutcome α) (name : String) (times : Nat → Nat)
    (callIdx : Nat) (st : TMState) (e : String)
    (he : withTimeout cfg.processTimeout (op callIdx) = Except.error e) :
    execGo cfg sb op name times callIdx 1 st =
      { result := .error (.errMsg ("Failed to execute " ++ name ++
          " after " ++ toString cfg.maxRetries ++
          " attempts. Last error: " ++ e))
        opCalls := 1
        renewAttempts := (renewOnError cfg sb e (times callIdx) callIdx
          { st with lastActivity := times callIdx }).2.1
        remoteRenews := (renewOnError cfg sb e (times callIdx) callIdx
          { st with lastActivity := times callIdx }).2.2
        st := (renewOnError cfg sb e (times callIdx) callIdx
          { st with lastActivity := times callIdx }).1 } := by
  conv_lhs => rw [execGo]
  simp [he]

/-- One step of the retry loop when a non-final attempt fails: recurse on
the remaining attempts from the post-renewal state, with one more
invocation recorded. -/
theorem execGo_step_retry {α : Type} (cfg : Config) (sb : Sandbox)
    (op : Nat → OpOutcome α) (name : String) (times : Nat → Nat)
    (callIdx k : Nat) (st : TMState) (e : String)
    (he : withTimeout cfg.processTimeout (op callIdx) = Except.error e)
    (hk : k ≠ 0) :
    (execGo cfg sb op name times callIdx (k + 1) st).result =
      (execGo cfg sb op name times (callIdx + 1) k
        (renewOnError cfg sb e (times callIdx) callIdx
          { st with lastActivity := times callIdx }).1).result ∧
    (execGo cfg sb op name times callIdx (k + 1) st).opCalls =
      (execGo cfg sb op name times (callIdx + 1) k
        (renewOnError cfg sb e (times callIdx) callIdx
          { st with lastActivity := times callIdx }).1).opCalls + 1 := by
  refine ⟨?_, ?_⟩ <;>
  · conv_lhs => rw [execGo]
    simp [he, hk]

/-- With an operation that never resolves, every level of the retry loop
performs exactly `remaining` invocations and ends in a rejection. -/
theorem execGo_allFail {α : Type} (cfg : Config) (sb : Sandbox)
    (op : Nat → OpOutcome α) (name : String) (times : Nat → Nat)
    (h : ∀ i, (op i).isOk = false) :
    ∀ remaining callIdx st,
      (execGo cfg sb op name times callIdx remaining st).opCalls =
        remaining ∧
      ∃ e, (execGo cfg sb op name times callIdx remaining st).result =
        Except.error e := by
  intro remaining
  induction remaining with
  | zero =>
    intro callIdx st
    exact ⟨rfl, Thrown.nullValue, rfl⟩
  | succ k ih =>
    intro callIdx st
    obtain ⟨e, he⟩ :=
      withTimeout_error_of_not_isOk cfg.processTimeout (op callIdx)
        (h callIdx)
    cases k with
    | zero =>
      rw [execGo_step_last cfg sb op name times callIdx st e he]
      exact ⟨rfl, _, rfl⟩
    | succ j =>
      obtain ⟨hres, hcalls⟩ := execGo_step_retry cfg sb op name times
        callIdx (j + 1) st e he (Nat.succ_ne_zero j)
      obtain ⟨h1, e2, h2⟩ := ih (callIdx + 1)
        (renewOnError cfg sb e (times callIdx) callIdx
          { st with lastActivity := times callIdx }).1
      exact ⟨by rw [hcalls, h1], e2, by rw [hres]; exact h2⟩

/-- The retry loop invokes the operation once per attempt up to the first
resolution: when the `n` invocations starting at `callIdx` reject and
invocation `callIdx + n` resolves within the allowed attempts, the loop
returns exactly that resolution after `n + 1` invocations. -/
theorem execGo_earlySuccess {α : Type} (cfg : Config) (sb : Sandbox)
    (op : Nat → OpOutcome α) (name : String) (times : Nat → Nat) (v : α) :
    ∀ n remaining callIdx st,
      (∀ j, j < n → (op (callIdx + j)).isOk = false) →
      op (callIdx + n) = OpOutcome.ok v →
      n < remaining →
      (execGo cfg sb op name times callIdx remaining st).result =
        Except.ok v ∧
      (execGo cfg sb op name times callIdx remaining st).opCalls =
        n + 1 := by
  intro n
  induction n with
  | zero =>
    intro remaining callIdx st hfail hok hlt
    obtain ⟨k, rfl⟩ : ∃ k, remaining = k + 1 := ⟨remaining - 1, by omega⟩
    have h0 : op callIdx = OpOutcome.ok v := by simpa using hok
    simp [execGo, withTimeout, h0]
  | succ m ih =>
    intro remaining callIdx st hfail hok hlt
    obtain ⟨k, rfl⟩ : ∃ k, remaining = k + 1 := ⟨remaining - 1, by omega⟩
    have h0 : (op callIdx).isOk = false := by
      simpa using hfail 0 (by omega)
    obtain ⟨e, he⟩ :=
      withTimeout_error_of_not_isOk cfg.processTimeout (op callIdx) h0
    have hk : k ≠ 0 := by omega
    have hfail2 : ∀ j, j < m → (op (callIdx + 1 + j)).isOk = false := by
      intro j hj
      have h1j : callIdx + 1 + j = callIdx + (j + 1) := by omega
      rw [h1j]
      exact hfail (j + 1) (by omega)
    have hok2 : op (callIdx + 1 + m) = OpOutcome.ok v := by
      have h1m : callIdx + 1 + m = callIdx + (m + 1) := by omega
      rw [h1m]; exact hok
    have hrec := ih k (callIdx + 1)
      ((renewOnError cfg sb e (times callIdx) callIdx
        { st with lastActivity := times callIdx }).1)
      hfail2 hok2 (by omega)
    obtain ⟨hres, hcalls⟩ :=
      execGo_step_retry cfg sb op name times callIdx k st e he hk
    exact ⟨by rw [hres]; exact hrec.1, by rw [hcalls, hrec.2]⟩

/-- The resolution and the invocation count of the retry loop do not depend
on the sandbox handle (hence not on renewal outcomes) nor on the starting
instance state. -/
theorem execGo_result_indep {α : Type} (cfg : Config) (sb sb2 : Sandbox)
    (op : Nat → OpOutcome α) (name : String) (times : Nat → Nat) :
    ∀ remaining callIdx st st2,
      (execGo cfg sb op name times callIdx remaining st).result =
        (execGo cfg sb2 op name times callIdx remaining st2).result ∧
      (execGo cfg sb op name times callIdx remaining st).opCalls =
        (execGo cfg sb2 op name times callIdx remaining st2).opCalls := by
  intro remaining
  induction remaining with
  | zero => intro _ _ _; exact ⟨rfl, rfl⟩
  | succ k ih =>
    intro callIdx st st2
    rcases hW : withTimeout (α := α) cfg.processTimeout (op callIdx)
      with e | a
    · cases k with
      | zero =>
        rw [execGo_step_last cfg sb op name times callIdx st e hW,
            execGo_step_last cfg sb2 op name times callIdx st2 e hW]
        exact ⟨rfl, rfl⟩
      | succ j =>
        obtain ⟨hres1, hcalls1⟩ := execGo_step_retry cfg sb op name times
          callIdx (j + 1) st e hW (Nat.succ_ne_zero j)
        obtain ⟨hres2, hcalls2⟩ := execGo_step_retry cfg sb2 op name times
          callIdx (j + 1) st2 e hW (Nat.succ_ne_zero j)
        obtain ⟨h1, h2⟩ := ih (callIdx + 1)
          ((renewOnError cfg sb e (times callIdx) callIdx
            { st with lastActivity := times callIdx }).1)
          ((renewOnError cfg sb2 e (times callIdx) callIdx
            { st2 with lastActivity := times callIdx }).1)
        exact ⟨by rw [hres1, hres2]; exact h1, by rw [hcalls1, hcalls2, h2]⟩
    · rw [execGo_step_ok cfg sb op name times callIdx k st a hW,
          execGo_step_ok cfg sb2 op name times callIdx k st2 a hW]
      exact ⟨rfl, rfl⟩

/-! ### Claim theorems -/

/-- C3: `isTimeoutError` returns true exactly when the lowercased message
contains one of the five keywords — true for every message containing one
case-insensitively, false for every message containing none. -/
theorem isTimeoutError_spec (msg : String) :
    isTimeoutError msg = true ↔
      ∃ k ∈ timeoutKeywords, k.toList <:+: (strToLower msg).toList := by
  simp [isTimeoutError, strIncludes, List.any_eq_true]

/-- C10: `cleanup` touches only the timer field: afterwards the timer is
cleared and `getStatus` reports `autoExtendEnabled = false`, while
`lastActivity` and `isExtending` keep their previous values. -/
theorem cleanup_frame (now : Nat) (st : TMState) :
    (cleanup st).autoExtendTimer = none ∧
    (getStatus now (cleanup st)).autoExtendEnabled = false ∧
    (cleanup st).lastActivity = st.lastActivity ∧
    (cleanup st).isExtending = st.isExtending := by
  rcases h : st.autoExtendTimer with _ | t <;>
    simp [cleanup, getStatus, h]

/-- C4: `extendSandboxTimeout` invoked while `isExtending` already holds
returns immediately — same state, no remote renewal call; and every
invocation that proceeds leaves `isExtending` false on exit, for every
sandbox, including one whose remote renewal call fails. -/
theorem extendSandboxTimeout_guard (sb : Sandbox) (cfg : Config)
    (now rIdx : Nat) (st : TMState) :
    (st.isExtending = true →
      extendSandboxTimeout sb cfg now rIdx st =
        { result := .ok (), st := st, remoteCalled := false }) ∧
    (st.isExtending = false →
      (extendSandboxTimeout sb cfg now rIdx st).st.isExtending = false) := by
  constructor
  · intro h
    simp [extendSandboxTimeout, h]
  · intro h
    rcases hf : sb.setTimeoutFn with _ | f
    · simp [extendSandboxTimeout, h, hf]
    · rcases hr : f cfg.timeoutMs rIdx with e | u <;>
        simp [extendSandboxTimeout, h, hf, hr]

/-- Witness for C4 at concrete inputs: a guarded call returns the state
unchanged without a remote call, and a proceeding call (against a sandbox
whose renewal fails) still exits with `isExtending = false`. -/
theorem extendSandboxTimeout_guard_witness :
    (extendSandboxTimeout
        { setTimeoutFn := some fun _ _ => Except.error "renew failed" }
        { maxRetries := 3, retryDelay := 0, processTimeout := 1000
          autoExtendThreshold := 0, timeoutMs := 1800000 }
        9 0 { lastActivity := 5, autoExtendTimer := none, isExtending := true } =
      { result := .ok ()
        st := { lastActivity := 5, autoExtendTimer := none, isExtending := true }
        remoteCalled := false }) ∧
    ((extendSandboxTimeout
        { setTimeoutFn := some fun _ _ => Except.error "renew failed" }
        { maxRetries := 3, retryDelay := 0, processTimeout := 1000
          autoExtendThreshold := 0, timeoutMs := 1800000 }
        9 0 { lastActivity := 5, autoExtendTimer := none
              isExtending := false }).st.isExtending = false) :=
  ⟨(extendSandboxTimeout_guard _ _ _ _ _).1 rfl,
   (extendSandboxTimeout_guard _ _ _ _ _).2 rfl⟩

/-- C8: with `maxRetries = 0` the loop body never runs: the operation is
never invoked and the call fails (with the thrown `null` of
`throw lastError!`), never resolving with a success result. -/
theorem executeWithTimeout_zeroRetries {α : Type} (cfg : Config)
    (sb : Sandbox) (op : Nat → OpOutcome α) (name : String)
    (times : Nat → Nat) (st : TMState) (h : cfg.maxRetries = 0) :
    (executeWithTimeout cfg sb op name times st).opCalls = 0 ∧
    (executeWithTimeout cfg sb op name times st).result =
      Except.error Thrown.nullValue := by
  simp [executeWithTimeout, h, execGo]

/-- Witness for C8: even an operation that would succeed immediately is
never invoked when `maxRetries = 0`, and the call fails. -/
theorem executeWithTimeout_zeroRetries_witness :
    (executeWithTimeout
        { maxRetries := 0, retryDelay := 0, processTimeout := 1000
          autoExtendThreshold := 0, timeoutMs := 1800000 }
        { setTimeoutFn := none } (fun _ => OpOutcome.ok 7) "op"
        (fun _ => 0)
        { lastActivity := 0, autoExtendTimer := none
          isExtending := false }).opCalls = 0 ∧
    (executeWithTimeout
        { maxRetries := 0, retryDelay := 0, processTimeout := 1000
          autoExtendThreshold := 0, timeoutMs := 1800000 }
        { setTimeoutFn := none } (fun _ => OpOutcome.ok 7) "op"
        (fun _ => 0)
        { lastActivity := 0, autoExtendTimer := none
          isExtending := false }).result = Except.error Thrown.nullValue :=
  executeWithTimeout_zeroRetries _ _ _ _ _ _ rfl

/-- C9: the global slot holds at most one manager (it is an `Option`), and
`setGlobalTimeoutManager` tears down the previously installed manager: its
state goes through `cleanup` (so its timer is cancelled) and afterwards
`getGlobalTimeoutManager` returns the new value. -/
theorem setGlobalTimeoutManager_teardown (w : GlobalWorld) (m : Nat)
    (v : Option Nat) (h : w.slot = some m) :
    (setGlobalTimeoutManager v w).managers m = cleanup (w.managers m) ∧
    ((setGlobalTimeoutManager v w).managers m).autoExtendTimer = none ∧
    getGlobalTimeoutManager (setGlobalTimeoutManager v w) = v := by
  refine ⟨?_, ?_, rfl⟩ <;>
    simp [setGlobalTimeoutManager, h, cleanup_timer_eq_none]

/-- Witness for C9: replacing the installed manager 0 (which has a live
timer) with manager 1 cleans up manager 0 and installs the new value. -/
theorem setGlobalTimeoutManager_teardown_witness :
    (setGlobalTimeoutManager (some 1)
        { slot := some 0
          managers := fun _ =>
            { lastActivity := 7, autoExtendTimer := some 60000
              isExtending := false } }).managers 0 =
      cleanup { lastActivity := 7, autoExtendTimer := some 60000
                isExtending := false } ∧
    ((setGlobalTimeoutManager (some 1)
        { slot := some 0
          managers := fun _ =>
            { lastActivity := 7, autoExtendTimer := some 60000
              isExtending := false } }).managers 0).autoExtendTimer = none ∧
    getGlobalTimeoutManager (setGlobalTimeoutManager (some 1)
        { slot := some 0
          managers := fun _ =>
            { lastActivity := 7, autoExtendTimer := some 60000
              isExtending := false } }) = some 1 :=
  setGlobalTimeoutManager_teardown _ 0 (some 1) rfl

/-- C1: for an operation that fails on every invocation,
`executeWithTimeout` invokes it exactly `maxRetries` times — no more, no
fewer — and then fails. -/
theorem executeWithTimeout_retryBound {α : Type} (cfg : Config)
    (sb : Sandbox) (op : Nat → OpOutcome α) (name : String)
    (times : Nat → Nat) (st : TMState)
    (h : ∀ i, (op i).isOk = false) :
    (executeWithTimeout cfg sb op name times st).opCalls =
      cfg.maxRetries ∧
    ∃ e, (executeWithTimeout cfg sb op name times st).result =
      Except.error e :=
  execGo_allFail cfg sb op name times h cfg.maxRetries 0 st

/-- Witness for C1: an operation rejecting every invocation under
`maxRetries = 2` is invoked exactly twice and the call fails. -/
theorem executeWithTimeout_retryBound_witness :
    (executeWithTimeout
        { maxRetries := 2, retryDelay := 0, processTimeout := 1000
          autoExtendThreshold := 0, timeoutMs := 1800000 }
        { setTimeoutFn := none }
        (fun _ => (OpOutcome.failed "boom" : OpOutcome Nat)) "op"
        (fun _ => 0)
        { lastActivity := 0, autoExtendTimer := none
          isExtending := false }).opCalls = 2 ∧
    ∃ e, (executeWithTimeout
        { maxRetries := 2, retryDelay := 0, processTimeout := 1000
          autoExtendThreshold := 0, timeoutMs := 1800000 }
        { setTimeoutFn := none }
        (fun _ => (OpOutcome.failed "boom" : OpOutcome Nat)) "op"
        (fun _ => 0)
        { lastActivity := 0, autoExtendTimer := none
          isExtending := false }).result = Except.error e :=
  executeWithTimeout_retryBound _ _ _ _ _ _ (fun _ => rfl)

/-- C2: for an operation that fails on its first `n` invocations and
resolves with `v` on invocation `n + 1`, with `n < maxRetries`,
`executeWithTimeout` invokes it exactly `n + 1` times and resolves with
`v` — no further attempts after the first success. -/
theorem executeWithTimeout_earlySuccess {α : Type} (cfg : Config)
    (sb : Sandbox) (op : Nat → OpOutcome α) (name : String)
    (times : Nat → Nat) (st : TMState) (n : Nat) (v : α)
    (hfail : ∀ j, j < n → (op j).isOk = false)
    (hok : op n = OpOutcome.ok v)
    (hlt : n < cfg.maxRetries) :
    (executeWithTimeout cfg sb op name times st).result = Except.ok v ∧
    (executeWithTimeout cfg sb op name times st).opCalls = n + 1 :=
  execGo_earlySuccess cfg sb op name times v n cfg.maxRetries 0 st
    (fun j hj => by simpa using hfail j hj)
    (by simpa using hok) hlt

/-- Witness for C2: an operation that rejects once then resolves with 42
under `maxRetries = 3` is invoked exactly twice and the call resolves
with 42. -/
theorem executeWithTimeout_earlySuccess_witness :
    (executeWithTimeout
        { maxRetries := 3, retryDelay := 0, processTimeout := 1000
          autoExtendThreshold := 0, timeoutMs := 1800000 }
        { setTimeoutFn := none }
        (fun i => if i = 0 then OpOutcome.failed "boom"
                  else OpOutcome.ok 42) "op"
        (fun _ => 0)
        { lastActivity := 0, autoExtendTimer := none
          isExtending := false }).result = Except.ok 42 ∧
    (executeWithTimeout
        { maxRetries := 3, retryDelay := 0, processTimeout := 1000
          autoExtendThreshold := 0, timeoutMs := 1800000 }
        { setTimeoutFn := none }
        (fun i => if i = 0 then OpOutcome.failed "boom"
                  else OpOutcome.ok 42) "op"
        (fun _ => 0)
        { lastActivity := 0, autoExtendTimer := none
          isExtending := false }).opCalls = 2 :=
  executeWithTimeout_earlySuccess _ _ _ _ _ _ 1 42
    (fun j hj => by
      have hj0 : j = 0 := by omega
      rw [hj0]; rfl)
    rfl (by decide)

set_option maxRecDepth 10000 in
/-- C5: with `maxRetries = 3`, `retryDelay = 0` and an operation that
always rejects with message "Error: 502 Bad Gateway", the call rejects
with a message containing "after 3 attempts" and "502 Bad Gateway", the
renewal path is entered exactly 3 times (once per failed attempt), and
each entry is a no-op performing no remote renewal call because the
sandbox has no renewal capability. -/
theorem executeWithTimeout_badGatewayScenario :
    (executeWithTimeout
        { maxRetries := 3, retryDelay := 0, processTimeout := 1000
          autoExtendThreshold := 0, timeoutMs := 1800000 }
        { setTimeoutFn := none }
        (fun _ => (OpOutcome.failed "Error: 502 Bad Gateway" :
          OpOutcome Nat))
        "sandbox operation" (fun _ => 0)
        { lastActivity := 0, autoExtendTimer := none
          isExtending := false }).result =
      Except.error (Thrown.errMsg
        ("Failed to execute sandbox operation after 3 attempts. " ++
         "Last error: Error: 502 Bad Gateway")) ∧
    strIncludes
      ("Failed to execute sandbox operation after 3 attempts. " ++
       "Last error: Error: 502 Bad Gateway") "after 3 attempts" = true ∧
    strIncludes
      ("Failed to execute sandbox operation after 3 attempts. " ++
       "Last error: Error: 502 Bad Gateway") "502 Bad Gateway" = true ∧
    (executeWithTimeout
        { maxRetries := 3, retryDelay := 0, processTimeout := 1000
          autoExtendThreshold := 0, timeoutMs := 1800000 }
        { setTimeoutFn := none }
        (fun _ => (OpOutcome.failed "Error: 502 Bad Gateway" :
          OpOutcome Nat))
        "sandbox operation" (fun _ => 0)
        { lastActivity := 0, autoExtendTimer := none
          isExtending := false }).renewAttempts = 3 ∧
    (executeWithTimeout
        { maxRetries := 3, retryDelay := 0, processTimeout := 1000
          autoExtendThreshold := 0, timeoutMs := 1800000 }
        { setTimeoutFn := none }
        (fun _ => (OpOutcome.failed "Error: 502 Bad Gateway" :
          OpOutcome Nat))
        "sandbox operation" (fun _ => 0)
        { lastActivity := 0, autoExtendTimer := none
          isExtending := false }).remoteRenews = 0 := by
  refine ⟨by rfl, by decide, by decide, by decide, by decide⟩

/-- C6: failures of the renewal attempt are contained: the resolution and
the invocation count of `executeWithTimeout` do not depend on the sandbox
handle or its renewal outcomes (so a renewal failure is never propagated
to the caller and never aborts the retry loop), and the scheduler tick
never lets an error escape (so it cannot crash the periodic timer). -/
theorem renewalFailure_contained {α : Type} (cfg : Config)
    (sb sb2 : Sandbox) (op : Nat → OpOutcome α) (name : String)
    (times : Nat → Nat) (st st2 : TMState) (now rIdx : Nat) :
    ((executeWithTimeout cfg sb op name times st).result =
       (executeWithTimeout cfg sb2 op name times st2).result ∧
     (executeWithTimeout cfg sb op name times st).opCalls =
       (executeWithTimeout cfg sb2 op name times st2).opCalls) ∧
    (autoExtendTick cfg sb now rIdx st).raised = none :=
  ⟨execGo_result_indep cfg sb sb2 op name times cfg.maxRetries 0 st st2,
   rfl⟩

/-- C7: when the threshold is configured (non-zero) the recurring tick is
installed at interval `min(threshold*60000/2, 60000)` ms; each tick enters
the renewal path exactly when `now - lastActivity` exceeds 80% of the
threshold window; and with a 5-minute threshold and 265 s of inactivity
the next tick triggers exactly one renewal call. -/
theorem scheduler_spec (cfg : Config) (sb : Sandbox) (now rIdx : Nat)
    (st : TMState) :
    (cfg.autoExtendThreshold ≠ 0 →
      (startAutoExtendTimer cfg st).autoExtendTimer =
        some (min (cfg.autoExtendThreshold * 60 * 1000 / 2) 60000)) ∧
    ((autoExtendTick cfg sb now rIdx st).renewCalls = 1 ↔
      (now - st.lastActivity) * 10 >
        cfg.autoExtendThreshold * 60 * 1000 * 8) ∧
    (autoExtendTick
        { maxRetries := 3, retryDelay := 0, processTimeout := 1000
          autoExtendThreshold := 5, timeoutMs := 1800000 }
        sb 265000 rIdx
        { lastActivity := 0, autoExtendTimer := some 60000
          isExtending := false }).renewCalls = 1 := by
  refine ⟨?_, ?_, ?_⟩
  · intro h
    simp [startAutoExtendTimer, h, checkIntervalMs]
  · have hcalls : (autoExtendTick cfg sb now rIdx st).renewCalls =
        (if tickTriggers cfg now st then 1 else 0) := by
      by_cases h : tickTriggers cfg now st <;>
        simp [autoExtendTick, autoExtendTickBody, h]
    rw [hcalls]
    by_cases h : tickTriggers cfg now st
    · have hp := of_decide_eq_true h
      simp [h, hp]
    · have hp : ¬ (now - st.lastActivity) * 10 >
          cfg.autoExtendThreshold * 60 * 1000 * 8 :=
        of_decide_eq_false (Bool.of_not_eq_true h)
      simp [h, hp]
  · have ht : tickTriggers
        { maxRetries := 3, retryDelay := 0, processTimeout := 1000
          autoExtendThreshold := 5, timeoutMs := 1800000 }
        265000
        { lastActivity := 0, autoExtendTimer := some 60000
          isExtending := false } = true := by decide
    simp [autoExtendTick, autoExtendTickBody, ht]

/-- Witness for C7: with a 5-minute threshold (non-zero, so the timer is
installed) the tick interval is `min(150000, 60000) = 60000` ms. -/
theorem scheduler_spec_witness :
    (startAutoExtendTimer
        { maxRetries := 3, retryDelay := 0, processTimeout := 1000
          autoExtendThreshold := 5, timeoutMs := 1800000 }
        { lastActivity := 0, autoExtendTimer := none
          isExtending := false }).autoExtendTimer =
      some (min (5 * 60 * 1000 / 2) 60000) :=
  (scheduler_spec
      { maxRetries := 3, retryDelay := 0, processTimeout := 1000
        autoExtendThreshold := 5, timeoutMs := 1800000 }
      { setTimeoutFn := none } 265000 0
      { lastActivity := 0, autoExtendTimer := none
        isExtending := false }).1 (by decide)

end SandboxTimeoutManager
